import Mathlib

/-!
Shallow embedding of the `@aegisjsproject/attempt` library (src/attempt.js)
and theorems checking the specification's claims against it.

Modelling conventions:
- JavaScript values relevant to the library are modelled by `Attempt.JSVal`.
  Object identity is modelled by a numeric id on every allocated object
  (`AttemptResult` tuples and `Error` objects); allocation threads an
  explicit `Attempt.World` carrying the next fresh id and a side-effect
  trace used to observe whether a callback was invoked.
- A JavaScript computation either returns normally or throws; this is
  `Attempt.JSRes`. Promise resolution/rejection is collapsed onto
  return/throw, matching the library's single-threaded, strictly
  sequential use of `await`.
- Callbacks are `Attempt.JsFun` (argument list and world in, result and
  world out); a value passed where a function is expected is
  `Attempt.Callback.notFun`, and `Attempt.Callback.fn` carries the
  `AsyncFunction` flag that `attemptSync` checks.
- `Object.freeze(this)` in the `AttemptResult` constructor
  (src/attempt.js:52) is modelled by the `frozen` flag on result values;
  the constructors set it, and the JS write/delete semantics on frozen
  arrays are `jsSetIndex`/`jsDelIndex`.
-/

namespace Attempt

/-- Kind of a JS error object: `Error` or `TypeError` (the only kinds the
library constructs). -/
inductive ErrKind where
| error
| typeError
deriving DecidableEq

/-- A JS `Error` object: identity id, kind and message. -/
structure ErrObj where
id : Nat
kind : ErrKind
message : String
deriving DecidableEq

/-- JS values as far as the library observes them. `vSuccess`/`vFailure`
are the `AttemptSuccess`/`AttemptFailure` tuples of src/attempt.js; they
carry an identity id and the frozen flag set by the constructor. -/
inductive JSVal where
| vNull
| vUndefined
| vBool (b : Bool)
| vNum (n : Int)
| vStr (s : String)
| vSym (description : String)
| vErr (e : ErrObj)
| vSignal (aborted : Bool) (reason : JSVal)
| vSuccess (id : Nat) (frozen : Bool) (value : JSVal)
| vFailure (id : Nat) (frozen : Bool) (error : ErrObj)
deriving DecidableEq

/-- Mutable world: next fresh object id, and a trace of side-effect
markers emitted by instrumented callbacks. -/
structure World where
nextId : Nat
trace : List Nat
deriving DecidableEq

/-- Advance the allocation counter. -/
def bump (w : World) : World := ⟨w.nextId + 1, w.trace⟩

/-- Outcome of running a JS computation: normal return or thrown value. -/
inductive JSRes where
| ret (v : JSVal)
| thr (v : JSVal)
deriving DecidableEq

/-- A JS function: takes its argument list and the world, produces a
return/throw outcome and the updated world. -/
def JsFun : Type := List JSVal → World → JSRes × World

/-- A value in callback position: either not a function at all, or a
function together with its `AsyncFunction` flag. -/
inductive Callback where
| notFun (v : JSVal)
| fn (isAsync : Bool) (f : JsFun)

/-- Decides `typeof cb !== 'function'`. -/
def Callback.isNotFun : Callback → Bool
| .notFun _ => true
| .fn _ _ => false

/-- Allocate a fresh `Error` object (`new Error(...)` / `new TypeError(...)`). -/
def allocErr (k : ErrKind) (msg : String) (w : World) : ErrObj × World :=
(⟨w.nextId, k, msg⟩, bump w)

/-- Throw a freshly allocated `TypeError` with the given message. -/
def throwTypeError (msg : String) (w : World) : JSRes × World :=
let p := allocErr .typeError msg w
(.thr (.vErr p.1), p.2)

/-- Decides `result instanceof AttemptResult` (src/attempt.js:172). -/
def isAttemptResult : JSVal → Bool
| .vSuccess _ _ _ => true
| .vFailure _ _ _ => true
| _ => false

/-- Decides `result instanceof AttemptSuccess` (src/attempt.js:180, `succeeded`). -/
def succeeded : JSVal → Bool
| .vSuccess _ _ _ => true
| _ => false

/-- Decides `result instanceof AttemptFailure` (src/attempt.js:188, `failed`). -/
def failed : JSVal → Bool
| .vFailure _ _ _ => true
| _ => false

/-- Decides `Error.isError(x)`. -/
def isErrorVal : JSVal → Bool
| .vErr _ => true
| _ => false

/-- The unique symbol `SUCCEEDED` (src/attempt.js:15). -/
def SUCCEEDED : JSVal := .vSym ("attempt:status:succeeded")

/-- The unique symbol `FAILED` (src/attempt.js:21). -/
def FAILED : JSVal := .vSym ("attempt:status:failed")

/-- The `status` getter of the two subclasses (src/attempt.js:92-94,
125-127); any non-result has no such property, read as `undefined`. -/
def statusOf : JSVal → JSVal
| .vSuccess _ _ _ => SUCCEEDED
| .vFailure _ _ _ => FAILED
| _ => .vUndefined

/-- String conversion used by the `Error` constructor for a defined,
non-string argument. Stringification of the cases the library can
actually reach (strings, null, booleans, numbers, errors). -/
def jsToString : JSVal → String
| .vNull => "null"
| .vUndefined => "undefined"
| .vBool true => "true"
| .vBool false => "false"
| .vNum n => toString n
| .vStr s => s
| .vSym s => s
| .vErr e => e.message
| .vSignal _ _ => "[object AbortSignal]"
| .vSuccess _ _ _ => "[object Array]"
| .vFailure _ _ _ => "[object Array]"

/-- Message stored by `new Error(x)`: empty for `undefined`, else the
string conversion of `x`. -/
def errorCtorMsg : JSVal → String
| .vUndefined => ""
| v => jsToString v

/-- Positional access `result[i]` on the two-slot `AttemptResult` array of
src/attempt.js (`super(value, error)` at line 51): index 0 is the value,
index 1 the error, anything past the end reads `undefined`. -/
def jsIndex : JSVal → Nat → JSVal
| .vSuccess _ _ v, 0 => v
| .vSuccess _ _ _, 1 => .vNull
| .vFailure _ _ _, 0 => .vNull
| .vFailure _ _ e, 1 => .vErr e
| _, _ => .vUndefined

/-- Named property access on an `AttemptResult` of src/attempt.js: the
subclasses define only a `status` getter (plus the inherited array
`length`); any other name, in particular `value`, `error` and `ok`,
reads `undefined`. -/
def jsProp (r : JSVal) (name : String) : JSVal :=
if isAttemptResult r then
  if name = "status" then statusOf r
  else if name = "length" then .vNum 2
  else .vUndefined
else .vUndefined

/-- Creates an `AttemptSuccess` or passes a result through
(`succeed`, src/attempt.js:197). The constructor chain ends in
`Object.freeze(this)` (line 52), hence the `true` frozen flag. -/
def succeed (v : JSVal) (w : World) : JSVal × World :=
if isAttemptResult v then (v, w)
else (.vSuccess w.nextId true v, bump w)

/-- The `new AttemptFailure(error)` constructor (src/attempt.js:107-119):
the error-normalization chain ending in `Object.freeze(this)`. Throws a
`TypeError` when handed a non-aborted `AbortSignal` (line 115). -/
def attemptFailureNew (e : JSVal) (w : World) : JSRes × World :=
match e with
| .vErr er => (.ret (.vFailure w.nextId true er), bump w)
| .vStr s =>
  let p := allocErr .error s w
  (.ret (.vFailure p.2.nextId true p.1), bump p.2)
| .vSignal ab reason =>
  if ab then
    match reason with
    | .vErr er => (.ret (.vFailure w.nextId true er), bump w)
    | r =>
      let p := allocErr .error (errorCtorMsg r) w
      (.ret (.vFailure p.2.nextId true p.1), bump p.2)
  else
    throwTypeError ("AbortSignal must be aborted to be used as an error.") w
| _ =>
  let p := allocErr .typeError ("Invalid error type provided.") w
  (.ret (.vFailure p.2.nextId true p.1), bump p.2)

/-- Creates an `AttemptFailure` or passes a result through
(`fail`, src/attempt.js:221-227). -/
def fail (e : JSVal) (w : World) : JSRes × World :=
if isAttemptResult e then (.ret e, w)
else attemptFailureNew e w

/-- Extracts the value of an `AttemptSuccess`, else throws
(`getResultValue`, src/attempt.js:237-243). -/
def getResultValue (v : JSVal) (w : World) : JSRes × World :=
match v with
| .vSuccess _ _ x => (.ret x, w)
| _ => throwTypeError ("Result must be an `AttemptSuccess` tuple.") w

/-- Extracts the error of an `AttemptFailure`, else throws
(`getResultError`, src/attempt.js:253-259). -/
def getResultError (v : JSVal) (w : World) : JSRes × World :=
match v with
| .vFailure _ _ er => (.ret (.vErr er), w)
| _ => throwTypeError ("Result must be an `AttemptFailure` tuple.") w

/-- Returns the status of an `AttemptResult`, else throws
(`getAttemptStatus`, src/attempt.js:137-143). -/
def getAttemptStatus (v : JSVal) (w : World) : JSRes × World :=
if isAttemptResult v then (.ret (statusOf v), w)
else throwTypeError ("Result must be an `AttemptResult` tuple.") w

/-- Synchronous executor (`attemptSync`, src/attempt.js:297-311): rejects
non-functions and async functions with a thrown `TypeError`, otherwise
runs the callback, wrapping a normal return with `succeed` and a thrown
value with `fail`. -/
def attemptSync (cb : Callback) (args : List JSVal) (w : World) : JSRes × World :=
match cb with
| .notFun _ => throwTypeError ("callback must be a function.") w
| .fn true _ => throwTypeError ("callback cannot be an async function.") w
| .fn false f =>
  match f args w with
  | (.ret v, w1) =>
    let p := succeed v w1
    (.ret p.1, p.2)
  | (.thr e, w1) => fail e w1

/-- Asynchronous executor (`attemptAsync`, src/attempt.js:275-281):
rejects non-functions with a thrown `TypeError`, otherwise runs
`Promise.try(callback, ...args).then(succeed).catch(fail)`; a rejection
of `fail` itself propagates as a rejection. -/
def attemptAsync (cb : Callback) (args : List JSVal) (w : World) : JSRes × World :=
match cb with
| .notFun _ => throwTypeError ("callback must be a function.") w
| .fn _ f =>
  match f args w with
  | (.ret v, w1) =>
    let p := succeed v w1
    (.ret p.1, p.2)
  | (.thr e, w1) => fail e w1

/-- Default success handler `_successHandler = input => input`
(src/attempt.js:155). -/
def jsSuccessHandler : JsFun := fun args w => (.ret (args.headD .vUndefined), w)

/-- Default failure handler `_failHandler = err => { throw err; }`
(src/attempt.js:162-164). -/
def jsFailHandler : JsFun := fun args w => (.thr (args.headD .vUndefined), w)

/-- Default for the `success` option of the dispatchers. -/
def successDefault : Callback := .fn false jsSuccessHandler

/-- Default for the `failure` option of the dispatchers. -/
def failureDefault : Callback := .fn false jsFailHandler

/-- Asynchronous dispatcher (`handleResultAsync`, src/attempt.js:360-379):
validates the result and the handlers, short-circuits on an aborted
signal by failing with the normalized reason, otherwise dispatches on
the status through `attemptAsync`. -/
def handleResultAsync (result : JSVal) (success? failure? : Option Callback)
    (signal : JSVal) (w : World) : JSRes × World :=
if isAttemptResult result = false then
  throwTypeError ("Result must be an `AttemptResult` tuple.") w
else
  let s := success?.getD successDefault
  let f := failure?.getD failureDefault
  if s.isNotFun || f.isNotFun then
    throwTypeError ("Both success and failure handlers must be functions.") w
  else
    match signal with
    | .vSignal true reason =>
      match reason with
      | .vErr er => fail (.vErr er) w
      | r =>
        let p := allocErr .error (errorCtorMsg r) w
        fail (.vErr p.1) p.2
    | _ =>
      match result with
      | .vSuccess _ _ v => attemptAsync s [v] w
      | .vFailure _ _ er => attemptAsync f [.vErr er] w
      | _ => (.ret .vUndefined, w)

/-- Synchronous dispatcher (`handleResultSync`, src/attempt.js:402-418):
validates the result and the handlers, then dispatches on the status
through `attemptSync`. -/
def handleResultSync (result : JSVal) (success? failure? : Option Callback)
    (w : World) : JSRes × World :=
if isAttemptResult result = false then
  throwTypeError ("Result must be an `AttemptResult` tuple.") w
else
  let s := success?.getD successDefault
  let f := failure?.getD failureDefault
  if s.isNotFun || f.isNotFun then
    throwTypeError ("Both success and failure handlers must be functions.") w
  else
    match result with
    | .vSuccess _ _ v => attemptSync s [v] w
    | .vFailure _ _ er => attemptSync f [.vErr er] w
    | _ => (.ret .vUndefined, w)

/-- Loop body of `attemptAll` (src/attempt.js:432-438): stop on an
`AttemptFailure`, otherwise feed the previous value (`result[0]`) to the
next callback through `attemptAsync`; a rejection propagates. -/
def attemptAllGo : JSVal → List Callback → World → JSRes × World
| r, [], w => (.ret r, w)
| r, cb :: rest, w =>
  if failed r then (.ret r, w)
  else
    match attemptAsync cb [jsIndex r 0] w with
    | (.ret r2, w2) => attemptAllGo r2 rest w2
    | (.thr e, w2) => (.thr e, w2)

/-- Sequential composer (`attemptAll`, src/attempt.js:426-442): rejects
the call when any callback is not a function, otherwise seeds
`succeed(null)` and runs the loop. -/
def attemptAll (cbs : List Callback) (w : World) : JSRes × World :=
if cbs.any Callback.isNotFun then
  throwTypeError ("All callbacks must be functions.") w
else
  let p := succeed .vNull w
  attemptAllGo p.1 cbs p.2

/-- Rethrows the error of an `AttemptFailure` (`throwIfFailed`,
src/attempt.js:450-454). -/
def throwIfFailed (v : JSVal) (w : World) : JSRes × World :=
match v with
| .vFailure _ _ er => (.thr (.vErr er), w)
| _ => (.ret .vUndefined, w)

/-- Frozen flag of an `AttemptResult` value; `false` on non-results. -/
def resultFrozen : JSVal → Bool
| .vSuccess _ fr _ => fr
| .vFailure _ fr _ => fr
| _ => false

/-- JS assignment `r[i] = x` on an `AttemptResult`: on a frozen array the
write is rejected and the object is unchanged; the hypothetical unfrozen
write is modelled for the value slot of a success (no unfrozen result is
ever produced by the library, see `succeed`/`attemptFailureNew`). -/
def jsSetIndex : JSVal → Nat → JSVal → JSVal
| .vSuccess i fr v, 0, x => if fr then .vSuccess i fr v else .vSuccess i fr x
| r, _, _ => r

/-- JS `delete r[i]` on an `AttemptResult`: on a frozen array the delete
is rejected and the object is unchanged; the hypothetical unfrozen
delete is modelled for the value slot of a success. -/
def jsDelIndex : JSVal → Nat → JSVal
| .vSuccess i fr v, 0 => if fr then .vSuccess i fr v else .vSuccess i fr .vUndefined
| r, _ => r

/-- Decides whether a computation returned normally. -/
def JSRes.isRet : JSRes → Bool
| .ret _ => true
| .thr _ => false

/-- Decides whether a computation returned an `AttemptFailure` normally. -/
def retFailure : JSRes → Bool
| .ret v => failed v
| .thr _ => false

/-- Decides whether a value is a non-aborted `AbortSignal`, the one input
on which `new AttemptFailure` throws. -/
def isNonAbortedSignal : JSVal → Bool
| .vSignal false _ => true
| _ => false

lemma succeed_of_result {r : JSVal} (h : isAttemptResult r = true) (w : World) :
    succeed r w = (r, w) := by
  simp [succeed, h]

lemma succeed_of_new {v : JSVal} (h : isAttemptResult v = false) (w : World) :
    succeed v w = (.vSuccess w.nextId true v, bump w) := by
  simp [succeed, h]

lemma fail_of_result {r : JSVal} (h : isAttemptResult r = true) (w : World) :
    fail r w = (.ret r, w) := by
  simp [fail, h]

lemma succeeded_not_failed {r : JSVal} (h : succeeded r = true) : failed r = false := by
  cases r <;> simp_all [succeeded, failed]

lemma fail_of_not_result {e : JSVal} (h1 : isAttemptResult e = false)
    (h2 : isNonAbortedSignal e = false) (w : World) :
    ∃ i er w', fail e w = (.ret (.vFailure i true er), w') := by
  cases e with
  | vSignal ab reason =>
    cases ab with
    | false => simp [isNonAbortedSignal] at h2
    | true => cases reason <;> exact ⟨_, _, _, rfl⟩
  | vSuccess i fr v => simp [isAttemptResult] at h1
  | vFailure i fr er => simp [isAttemptResult] at h1
  | vNull => exact ⟨_, _, _, rfl⟩
  | vUndefined => exact ⟨_, _, _, rfl⟩
  | vBool b => exact ⟨_, _, _, rfl⟩
  | vNum n => exact ⟨_, _, _, rfl⟩
  | vStr s => exact ⟨_, _, _, rfl⟩
  | vSym s => exact ⟨_, _, _, rfl⟩
  | vErr er => exact ⟨_, _, _, rfl⟩

lemma fail_ret_isResult {e : JSVal} {w : World} {r : JSVal} {w' : World}
    (h : fail e w = (.ret r, w')) : isAttemptResult r = true := by
  by_cases hres : isAttemptResult e = true
  · rw [fail_of_result hres] at h
    obtain ⟨rfl, rfl⟩ : r = e ∧ w' = w := by
      constructor <;> [exact (JSRes.ret.inj (congrArg Prod.fst h)).symm;
        exact (congrArg Prod.snd h).symm]
    exact hres
  · rw [Bool.not_eq_true] at hres
    by_cases hsig : isNonAbortedSignal e = true
    · exfalso
      cases e with
      | vSignal ab reason =>
        cases ab with
        | true => simp [isNonAbortedSignal] at hsig
        | false =>
          simp [fail, attemptFailureNew, isAttemptResult, throwTypeError, allocErr] at h
      | vNull => simp [isNonAbortedSignal] at hsig
      | vUndefined => simp [isNonAbortedSignal] at hsig
      | vBool b => simp [isNonAbortedSignal] at hsig
      | vNum n => simp [isNonAbortedSignal] at hsig
      | vStr s => simp [isNonAbortedSignal] at hsig
      | vSym s => simp [isNonAbortedSignal] at hsig
      | vErr er => simp [isNonAbortedSignal] at hsig
      | vSuccess i fr v => simp [isNonAbortedSignal] at hsig
      | vFailure i fr er => simp [isNonAbortedSignal] at hsig
    · rw [Bool.not_eq_true] at hsig
      obtain ⟨i, er, w2, hw⟩ := fail_of_not_result hres hsig w
      rw [hw] at h
      obtain rfl : r = .vFailure i true er :=
        (JSRes.ret.inj (congrArg Prod.fst h)).symm
      rfl

lemma attemptAllGo_break {r : JSVal} (h : failed r = true) (cbs : List Callback)
    (w : World) : attemptAllGo r cbs w = (.ret r, w) := by
  cases cbs <;> simp [attemptAllGo, h]

lemma attemptAllGo_cons {r : JSVal} (h : failed r = false) (cb : Callback)
    (cbs : List Callback) (w : World) :
    attemptAllGo r (cb :: cbs) w =
      match attemptAsync cb [jsIndex r 0] w with
      | (.ret r2, w2) => attemptAllGo r2 cbs w2
      | (.thr e, w2) => (.thr e, w2) := by
  simp [attemptAllGo, h]

lemma go_two {b2 : Bool} {f2 : JsFun}
    (hf2 : ∀ a u, ∃ e u', f2 a u = (.thr e, u') ∧ succeeded e = false ∧
      isNonAbortedSignal e = false)
    {r : JSVal} (hr : succeeded r = true) (w : World) :
    ∃ rf w2, failed rf = true ∧
      ∀ rest : List Callback, attemptAllGo r (.fn b2 f2 :: rest) w = (.ret rf, w2) := by
  obtain ⟨e, u', he, hs, hn⟩ := hf2 [jsIndex r 0] w
  by_cases hres : isAttemptResult e = true
  · have hef : failed e = true := by
      cases e <;> simp_all [isAttemptResult, succeeded, failed]
    refine ⟨e, u', hef, fun rest => ?_⟩
    rw [attemptAllGo_cons (succeeded_not_failed hr)]
    simp only [attemptAsync, he, fail_of_result hres]
    exact attemptAllGo_break hef rest u'
  · rw [Bool.not_eq_true] at hres
    obtain ⟨i, er, w2, hw⟩ := fail_of_not_result hres hn u'
    refine ⟨.vFailure i true er, w2, rfl, fun rest => ?_⟩
    rw [attemptAllGo_cons (succeeded_not_failed hr)]
    simp only [attemptAsync, he, hw]
    exact @attemptAllGo_break (.vFailure i true er) rfl rest w2

lemma result_succeeded_of_not_failed {v : JSVal} (h1 : isAttemptResult v = true)
    (h2 : failed v = false) : succeeded v = true := by
  cases v <;> simp_all [isAttemptResult, failed, succeeded]

/-- C1: the claim asserts that positional access (slot 0 = value, slot 1 =
error, slot 2 = ok) and named access (`.value`, `.error`, `.ok`,
`.status`) agree and are simultaneously supported on every produced
Outcome. On src/attempt.js the tuple produced by `succeed(5)` has the
value at slot 0 and the status getter, but slot 2 and the named
properties `value`, `error` and `ok` all read `undefined`: the claim
fails on this version of the code, while the repository's own test file
and changelog (v1.0.5) require the named accessors. -/
theorem c1_dual_access_divergence :
    succeed (.vNum 5) ⟨0, []⟩ = (.vSuccess 0 true (.vNum 5), ⟨1, []⟩)
    ∧ jsIndex (.vSuccess 0 true (.vNum 5)) 0 = .vNum 5
    ∧ jsIndex (.vSuccess 0 true (.vNum 5)) 1 = .vNull
    ∧ jsIndex (.vSuccess 0 true (.vNum 5)) 2 = .vUndefined
    ∧ jsProp (.vSuccess 0 true (.vNum 5)) ("value") = .vUndefined
    ∧ jsProp (.vSuccess 0 true (.vNum 5)) ("error") = .vUndefined
    ∧ jsProp (.vSuccess 0 true (.vNum 5)) ("ok") = .vUndefined
    ∧ jsProp (.vSuccess 0 true (.vNum 5)) ("status") = SUCCEEDED := by
  decide

/-- C2: the claim asserts that `fail` is total and never throws, and that a
non-aborted `AbortSignal` produces a Failure carrying a type-mismatch
error. On src/attempt.js the `AttemptFailure` constructor instead throws
a `TypeError` on a non-aborted signal (line 115), so `fail` on that
input throws rather than returning a Failure; the repository's own test
file expects the returned Failure. -/
theorem c2_nonaborted_signal_throws :
    fail (.vSignal false .vUndefined) ⟨0, []⟩ =
      (.thr (.vErr ⟨0, .typeError, "AbortSignal must be aborted to be used as an error."⟩),
        ⟨1, []⟩)
    ∧ retFailure (fail (.vSignal false .vUndefined) ⟨0, []⟩).1 = false := by
  decide

/-- C5: `succeed` and `fail` are idempotent by identity. Re-applying
`succeed` to its own output returns the very same tuple (same id) and
the very same world (no allocation happens); re-applying `fail` to a
Failure it produced returns it unchanged; and either constructor applied
to any existing `AttemptResult` returns that instance unchanged. -/
theorem c5_idempotent_identity (v e r : JSVal) (w : World) :
    succeed (succeed v w).1 (succeed v w).2 = succeed v w
    ∧ (∀ (r' : JSVal) (w' : World), fail e w = (.ret r', w') → fail r' w' = (.ret r', w'))
    ∧ (isAttemptResult r = true → succeed r w = (r, w) ∧ fail r w = (.ret r, w)) := by
  refine ⟨?_, ?_, ?_⟩
  · by_cases h : isAttemptResult v = true
    · simp only [succeed_of_result h]
    · rw [Bool.not_eq_true] at h
      simp only [succeed_of_new h]
      exact @succeed_of_result (.vSuccess w.nextId true v) rfl (bump w)
  · intro r' w' hfw
    exact fail_of_result (fail_ret_isResult hfw) w'
  · intro h
    exact ⟨succeed_of_result h w, fail_of_result h w⟩

/-- Witness for C5 at a concrete `AttemptSuccess` instance. -/
theorem c5_witness :
    succeed (.vSuccess 0 true .vNull) ⟨5, []⟩ = (.vSuccess 0 true .vNull, ⟨5, []⟩)
    ∧ fail (.vSuccess 0 true .vNull) ⟨5, []⟩ = (.ret (.vSuccess 0 true .vNull), ⟨5, []⟩) :=
  (c5_idempotent_identity (.vNum 1) (.vStr ("x")) (.vSuccess 0 true .vNull) ⟨5, []⟩).2.2
    (by decide)

/-- C7: `getResultValue` throws a `TypeError` on every input that is not an
`AttemptSuccess` (in particular on every `AttemptFailure`),
`getResultError` throws a `TypeError` on every input that is not an
`AttemptFailure`, and `getAttemptStatus` throws a `TypeError` on every
input that is not an `AttemptResult`; none of them returns a sentinel. -/
theorem c7_accessors_throw (v : JSVal) (w : World) :
    (succeeded v = false →
      getResultValue v w =
        (.thr (.vErr ⟨w.nextId, .typeError, "Result must be an `AttemptSuccess` tuple."⟩),
          bump w))
    ∧ (failed v = false →
      getResultError v w =
        (.thr (.vErr ⟨w.nextId, .typeError, "Result must be an `AttemptFailure` tuple."⟩),
          bump w))
    ∧ (isAttemptResult v = false →
      getAttemptStatus v w =
        (.thr (.vErr ⟨w.nextId, .typeError, "Result must be an `AttemptResult` tuple."⟩),
          bump w)) := by
  cases v <;>
    simp [getResultValue, getResultError, getAttemptStatus, succeeded, failed,
      isAttemptResult, throwTypeError, allocErr]

/-- Witness for C7 at the input `null`. -/
theorem c7_witness :
    getResultValue .vNull ⟨0, []⟩ =
      (.thr (.vErr ⟨0, .typeError, "Result must be an `AttemptSuccess` tuple."⟩), ⟨1, []⟩) :=
  (c7_accessors_throw .vNull ⟨0, []⟩).1 (by decide)

/-- C8 counterexample: the claim quantifies over every value `v`, but
`succeed` passes an existing `AttemptResult` through unchanged, so for
`v` an `AttemptFailure` the result of `succeed(v)` is not a success, and
for `v` an `AttemptSuccess` the value read back by `getResultValue` is
the inner value of `v`, not `v` itself. -/
theorem c8_counterexample :
    succeeded (succeed (.vFailure 5 true ⟨4, .error, "boom"⟩) ⟨0, []⟩).1 = false
    ∧ (getResultValue (succeed (.vSuccess 3 true (.vNum 1)) ⟨0, []⟩).1
        (succeed (.vSuccess 3 true (.vNum 1)) ⟨0, []⟩).2).1 ≠
        .ret (.vSuccess 3 true (.vNum 1)) := by
  decide

/-- C8 amended: for every value `v` that is not already an
`AttemptResult` (including null and undefined), `succeeded(succeed(v))`
is true and `getResultValue(succeed(v))` returns `v`. -/
theorem c8_wrap_success_amended (v : JSVal) (w : World)
    (hv : isAttemptResult v = false) :
    succeeded (succeed v w).1 = true
    ∧ getResultValue (succeed v w).1 (succeed v w).2 = (.ret v, (succeed v w).2) := by
  simp only [succeed_of_new hv]
  exact ⟨rfl, rfl⟩

/-- Witness for the amended C8 at the input `null`. -/
theorem c8_witness :
    succeeded (succeed .vNull ⟨0, []⟩).1 = true
    ∧ getResultValue (succeed .vNull ⟨0, []⟩).1 (succeed .vNull ⟨0, []⟩).2 =
        (.ret .vNull, (succeed .vNull ⟨0, []⟩).2) :=
  c8_wrap_success_amended .vNull ⟨0, []⟩ (by decide)

/-- C3 counterexample: the claim asserts that whenever `f2` throws, the
composed result is a Failure and `f3`, `f4` are never invoked. But
`fail` passes an existing `AttemptResult` through unchanged, so a
callback that throws an `AttemptSuccess` makes its step resolve to a
Success: the loop continues, `f3` and `f4` run (their trace markers 3
and 4 appear in the final world), and the final result is a Success. -/
theorem c3_counterexample :
    retFailure (attemptAll [
      .fn false (fun _ u => (.ret (.vStr ("a")), u)),
      .fn false (fun _ u => (.thr (.vSuccess 99 true (.vNum 42)), u)),
      .fn false (fun _ u => (.ret .vNull, ⟨u.nextId, u.trace ++ [3]⟩)),
      .fn false (fun _ u => (.ret .vNull, ⟨u.nextId, u.trace ++ [4]⟩))] ⟨0, []⟩).1 = false
    ∧ (attemptAll [
      .fn false (fun _ u => (.ret (.vStr ("a")), u)),
      .fn false (fun _ u => (.thr (.vSuccess 99 true (.vNum 42)), u)),
      .fn false (fun _ u => (.ret .vNull, ⟨u.nextId, u.trace ++ [3]⟩)),
      .fn false (fun _ u => (.ret .vNull, ⟨u.nextId, u.trace ++ [4]⟩))] ⟨0, []⟩).2.trace =
      [3, 4] := by
  exact ⟨rfl, rfl⟩

/-- C3 amended: `attemptAll` with an empty list resolves to a fresh
Success wrapping `null`; and for `attemptAll(f1, f2, f3, f4)` where `f1`
never throws a non-aborted `AbortSignal` and `f2` always throws a value
that is neither an `AttemptSuccess` nor a non-aborted `AbortSignal`, the
result is a Failure Outcome and `f3`, `f4` are never invoked (the whole
computation, final world included, is unchanged when they are replaced
by arbitrary functions). -/
theorem c3_short_circuit_amended (b1 b2 b3 b4 : Bool) (f1 f2 f3 f4 : JsFun) (w : World)
    (hf1 : ∀ a u e u', f1 a u = (.thr e, u') → isNonAbortedSignal e = false)
    (hf2 : ∀ a u, ∃ e u', f2 a u = (.thr e, u') ∧ succeeded e = false ∧
      isNonAbortedSignal e = false) :
    attemptAll [] w = (.ret (.vSuccess w.nextId true .vNull), bump w)
    ∧ retFailure (attemptAll [.fn b1 f1, .fn b2 f2, .fn b3 f3, .fn b4 f4] w).1 = true
    ∧ ∀ (b3' b4' : Bool) (g3 g4 : JsFun),
        attemptAll [.fn b1 f1, .fn b2 f2, .fn b3' g3, .fn b4' g4] w =
        attemptAll [.fn b1 f1, .fn b2 f2, .fn b3 f3, .fn b4 f4] w := by
  have hpre : ∀ (b3' b4' : Bool) (g3 g4 : JsFun),
      attemptAll [.fn b1 f1, .fn b2 f2, .fn b3' g3, .fn b4' g4] w =
      attemptAllGo (.vSuccess w.nextId true .vNull)
        [.fn b1 f1, .fn b2 f2, .fn b3' g3, .fn b4' g4] (bump w) := by
    intro b3' b4' g3 g4
    simp [attemptAll, Callback.isNotFun, succeed, isAttemptResult]
  have hcons : ∀ rest : List Callback,
      attemptAllGo (.vSuccess w.nextId true .vNull) (.fn b1 f1 :: rest) (bump w) =
        match attemptAsync (.fn b1 f1) [.vNull] (bump w) with
        | (.ret r2, w2) => attemptAllGo r2 rest w2
        | (.thr e, w2) => (.thr e, w2) := by
    intro rest
    rw [@attemptAllGo_cons (.vSuccess w.nextId true .vNull) rfl (.fn b1 f1) rest (bump w)]
    rfl
  have hstep : ∃ res, retFailure res.1 = true ∧
      ∀ rest : List Callback,
        attemptAllGo (.vSuccess w.nextId true .vNull)
          (.fn b1 f1 :: .fn b2 f2 :: rest) (bump w) = res := by
    rcases h1 : f1 [.vNull] (bump w) with ⟨res1, w2⟩
    cases res1 with
    | ret v =>
      by_cases hv : isAttemptResult v = true
      · by_cases hfv : failed v = true
        · refine ⟨(.ret v, w2), by simp [retFailure, hfv], fun rest => ?_⟩
          rw [hcons]
          simp only [attemptAsync, h1, succeed_of_result hv]
          exact attemptAllGo_break hfv _ w2
        · rw [Bool.not_eq_true] at hfv
          have hsv := result_succeeded_of_not_failed hv hfv
          obtain ⟨rf, w3, hrf, hgo⟩ := go_two hf2 hsv w2
          refine ⟨(.ret rf, w3), by simp [retFailure, hrf], fun rest => ?_⟩
          rw [hcons]
          simp only [attemptAsync, h1, succeed_of_result hv]
          exact hgo _
      · rw [Bool.not_eq_true] at hv
        have hsv : succeeded (.vSuccess w2.nextId true v) = true := rfl
        obtain ⟨rf, w3, hrf, hgo⟩ := go_two hf2 hsv (bump w2)
        refine ⟨(.ret rf, w3), by simp [retFailure, hrf], fun rest => ?_⟩
        rw [hcons]
        simp only [attemptAsync, h1, succeed_of_new hv]
        exact hgo _
    | thr e =>
      have hn := hf1 _ _ _ _ h1
      by_cases hres : isAttemptResult e = true
      · by_cases hfe : failed e = true
        · refine ⟨(.ret e, w2), by simp [retFailure, hfe], fun rest => ?_⟩
          rw [hcons]
          simp only [attemptAsync, h1, fail_of_result hres]
          exact attemptAllGo_break hfe _ w2
        · rw [Bool.not_eq_true] at hfe
          have hse := result_succeeded_of_not_failed hres hfe
          obtain ⟨rf, w3, hrf, hgo⟩ := go_two hf2 hse w2
          refine ⟨(.ret rf, w3), by simp [retFailure, hrf], fun rest => ?_⟩
          rw [hcons]
          simp only [attemptAsync, h1, fail_of_result hres]
          exact hgo _
      · rw [Bool.not_eq_true] at hres
        obtain ⟨i, er, w', hfw⟩ := fail_of_not_result hres hn w2
        refine ⟨(.ret (.vFailure i true er), w'), by simp [retFailure, failed],
          fun rest => ?_⟩
        rw [hcons]
        simp only [attemptAsync, h1, hfw]
        exact @attemptAllGo_break (.vFailure i true er) rfl _ w'
  obtain ⟨res, hresf, hall⟩ := hstep
  refine ⟨rfl, ?_, ?_⟩
  · rw [hpre b3 b4 f3 f4, hall [.fn b3 f3, .fn b4 f4]]
    exact hresf
  · intro b3' b4' g3 g4
    rw [hpre b3' b4' g3 g4, hpre b3 b4 f3 f4, hall, hall]

/-- Witness for the amended C3: a pipeline whose second callback throws a
plain `Error`; the composed result is a Failure and replacing the last
two callbacks does not change the outcome. -/
theorem c3_witness :
    retFailure (attemptAll [
      .fn false (fun _ u => (.ret (.vStr ("a")), u)),
      .fn false (fun _ u => (.thr (.vErr ⟨500, .error, "forced"⟩), u)),
      .fn false (fun _ u => (.ret .vNull, ⟨u.nextId, u.trace ++ [3]⟩)),
      .fn false (fun _ u => (.ret .vNull, ⟨u.nextId, u.trace ++ [4]⟩))] ⟨0, []⟩).1 = true :=
  (c3_short_circuit_amended false false false false
    (fun _ u => (.ret (.vStr ("a")), u))
    (fun _ u => (.thr (.vErr ⟨500, .error, "forced"⟩), u))
    (fun _ u => (.ret .vNull, ⟨u.nextId, u.trace ++ [3]⟩))
    (fun _ u => (.ret .vNull, ⟨u.nextId, u.trace ++ [4]⟩)) ⟨0, []⟩
    (fun a u e u' h => absurd (congrArg Prod.fst h) (by simp))
    (fun a u => ⟨.vErr ⟨500, .error, "forced"⟩, u, rfl, rfl, rfl⟩)).2.1

/-- C4: for every `AttemptResult`, every pair of function handlers and
every already-aborted signal, `handleResultAsync` resolves to a Failure
Outcome derived from the signal's reason (the reason itself when it is
an `Error`, else a fresh `Error` carrying its string conversion), and
neither handler is invoked: the whole computation, final world
included, is unchanged when the handlers are replaced by arbitrary
functions. -/
theorem c4_aborted_signal_short_circuit (result : JSVal) (b1 b2 : Bool) (s f : JsFun)
    (reason : JSVal) (w : World) (hres : isAttemptResult result = true) :
    retFailure (handleResultAsync result (some (.fn b1 s)) (some (.fn b2 f))
      (.vSignal true reason) w).1 = true
    ∧ (∀ (b1' b2' : Bool) (s' f' : JsFun),
        handleResultAsync result (some (.fn b1' s')) (some (.fn b2' f'))
          (.vSignal true reason) w =
        handleResultAsync result (some (.fn b1 s)) (some (.fn b2 f))
          (.vSignal true reason) w)
    ∧ (∀ er : ErrObj, reason = .vErr er →
        handleResultAsync result (some (.fn b1 s)) (some (.fn b2 f))
          (.vSignal true reason) w = (.ret (.vFailure w.nextId true er), bump w))
    ∧ (isErrorVal reason = false →
        handleResultAsync result (some (.fn b1 s)) (some (.fn b2 f))
          (.vSignal true reason) w =
          (.ret (.vFailure (w.nextId + 1) true ⟨w.nextId, .error, errorCtorMsg reason⟩),
            bump (bump w))) := by
  have hunf : ∀ (b1' b2' : Bool) (s' f' : JsFun),
      handleResultAsync result (some (.fn b1' s')) (some (.fn b2' f'))
        (.vSignal true reason) w =
        match reason with
        | .vErr er => fail (.vErr er) w
        | r =>
          let p := allocErr .error (errorCtorMsg r) w
          fail (.vErr p.1) p.2 := by
    intro b1' b2' s' f'
    simp [handleResultAsync, hres, Callback.isNotFun]
  refine ⟨?_, ?_, ?_, ?_⟩
  · rw [hunf b1 b2 s f]
    cases reason <;> rfl
  · intro b1' b2' s' f'
    rw [hunf b1' b2' s' f', hunf b1 b2 s f]
  · intro er h
    subst h
    rw [hunf b1 b2 s f]
    rfl
  · intro h
    rw [hunf b1 b2 s f]
    cases reason with
    | vErr er => simp [isErrorVal] at h
    | vNull => rfl
    | vUndefined => rfl
    | vBool b => rfl
    | vNum n => rfl
    | vStr s => rfl
    | vSym s => rfl
    | vSignal ab r => rfl
    | vSuccess i fr x => rfl
    | vFailure i fr er => rfl

/-- Witness for C4: a Success dispatched under an already-aborted signal
with a string reason comes back as a Failure carrying an `Error` whose
message is that string. -/
theorem c4_witness :
    handleResultAsync (.vSuccess 0 true .vNull)
      (some (.fn false (fun _ u => (.ret .vNull, u))))
      (some (.fn false (fun _ u => (.ret .vNull, u))))
      (.vSignal true (.vStr ("stop"))) ⟨2, []⟩ =
      (.ret (.vFailure 3 true ⟨2, .error, "stop"⟩), ⟨4, []⟩) :=
  (c4_aborted_signal_short_circuit (.vSuccess 0 true .vNull) false false
    (fun _ u => (.ret .vNull, u)) (fun _ u => (.ret .vNull, u))
    (.vStr ("stop")) ⟨2, []⟩ (by decide)).2.2.2 (by decide)

/-- C6 counterexample: the claim asserts that for a plain (non-async)
function callback `attemptSync` never throws and returns a Failure
whenever the callback throws. But a callback that throws an
`AttemptSuccess` makes `attemptSync` return that Success (not a
Failure), and a callback that throws a non-aborted `AbortSignal` makes
`attemptSync` itself throw a `TypeError` (the `AttemptFailure`
constructor throws inside the catch block). -/
theorem c6_counterexample :
    attemptSync (.fn false (fun _ u => (.thr (.vSuccess 99 true .vNull), u))) [] ⟨0, []⟩ =
      (.ret (.vSuccess 99 true .vNull), ⟨0, []⟩)
    ∧ failed (.vSuccess 99 true .vNull) = false
    ∧ attemptSync (.fn false (fun _ u => (.thr (.vSignal false .vUndefined), u))) [] ⟨0, []⟩ =
      (.thr (.vErr ⟨0, .typeError, "AbortSignal must be aborted to be used as an error."⟩),
        ⟨1, []⟩) :=
  ⟨rfl, rfl, rfl⟩

/-- C6 amended: `attemptSync` throws a `TypeError` when the callback is
not a function or is an async function; for a plain function callback,
a normal return yields `succeed(returnValue)`, a thrown `AttemptResult`
is returned unchanged, a thrown value that is neither an
`AttemptResult` nor a non-aborted `AbortSignal` yields a Failure
Outcome, and a thrown non-aborted `AbortSignal` makes `attemptSync`
itself throw a `TypeError`. -/
theorem c6_attemptSync_amended (v : JSVal) (f : JsFun) (args : List JSVal) (w : World) :
    attemptSync (.notFun v) args w =
      (.thr (.vErr ⟨w.nextId, .typeError, "callback must be a function."⟩), bump w)
    ∧ attemptSync (.fn true f) args w =
      (.thr (.vErr ⟨w.nextId, .typeError, "callback cannot be an async function."⟩), bump w)
    ∧ (∀ (r : JSVal) (w' : World), f args w = (.ret r, w') →
        attemptSync (.fn false f) args w = (.ret (succeed r w').1, (succeed r w').2))
    ∧ (∀ (e : JSVal) (w' : World), f args w = (.thr e, w') → isAttemptResult e = true →
        attemptSync (.fn false f) args w = (.ret e, w'))
    ∧ (∀ (e : JSVal) (w' : World), f args w = (.thr e, w') → isAttemptResult e = false →
        isNonAbortedSignal e = false →
        retFailure (attemptSync (.fn false f) args w).1 = true)
    ∧ (∀ (re : JSVal) (w' : World), f args w = (.thr (.vSignal false re), w') →
        attemptSync (.fn false f) args w =
          (.thr (.vErr ⟨w'.nextId, .typeError,
            "AbortSignal must be aborted to be used as an error."⟩), bump w')) := by
  refine ⟨rfl, rfl, ?_, ?_, ?_, ?_⟩
  · intro r w' h
    simp [attemptSync, h]
  · intro e w' h he
    simp [attemptSync, h, fail_of_result he]
  · intro e w' h he hn
    obtain ⟨i, er, w2, hw⟩ := fail_of_not_result he hn w'
    simp [attemptSync, h, hw, retFailure, failed]
  · intro re w' h
    simp [attemptSync, h, fail, attemptFailureNew, isAttemptResult, throwTypeError, allocErr]

/-- Witness for the amended C6: a callback that throws a plain string
yields a Failure Outcome. -/
theorem c6_witness :
    retFailure (attemptSync (.fn false (fun _ u => (.thr (.vStr ("x")), u))) [] ⟨0, []⟩).1 =
      true :=
  (c6_attemptSync_amended .vNull (fun _ u => (.thr (.vStr ("x")), u)) [] ⟨0, []⟩).2.2.2.2.1
    (.vStr ("x")) ⟨0, []⟩ rfl (by decide) (by decide)

/-- C9: every `AttemptResult` the library constructs is frozen from the
moment of construction (`Object.freeze(this)` runs in the constructor
before the instance is returned, modelled by the frozen flag that
`succeed` and `fail` set on every tuple they allocate), and on a frozen
tuple both slot assignment and entry deletion leave the tuple
unchanged. Exported operations only hand out results produced by
`succeed`/`fail` or pass existing instances through unchanged, so no
operation mutates an existing result. -/
theorem c9_frozen_immutability (v e x : JSVal) (w : World) (i : Nat) :
    (isAttemptResult v = false → succeed v w = (.vSuccess w.nextId true v, bump w))
    ∧ (∀ (r : JSVal) (w' : World), isAttemptResult e = false → fail e w = (.ret r, w') →
        resultFrozen r = true)
    ∧ (resultFrozen v = true → jsSetIndex v i x = v ∧ jsDelIndex v i = v) := by
  refine ⟨fun hv => succeed_of_new hv w, ?_, ?_⟩
  · intro r w' he h
    by_cases hs : isNonAbortedSignal e = true
    · exfalso
      cases e with
      | vSignal ab reason =>
        cases ab with
        | true => simp [isNonAbortedSignal] at hs
        | false =>
          simp [fail, attemptFailureNew, isAttemptResult, throwTypeError, allocErr] at h
      | vNull => simp [isNonAbortedSignal] at hs
      | vUndefined => simp [isNonAbortedSignal] at hs
      | vBool b => simp [isNonAbortedSignal] at hs
      | vNum n => simp [isNonAbortedSignal] at hs
      | vStr s => simp [isNonAbortedSignal] at hs
      | vSym s => simp [isNonAbortedSignal] at hs
      | vErr er => simp [isNonAbortedSignal] at hs
      | vSuccess i2 fr val => simp [isNonAbortedSignal] at hs
      | vFailure i2 fr er => simp [isNonAbortedSignal] at hs
    · rw [Bool.not_eq_true] at hs
      obtain ⟨i2, er, w2, hw⟩ := fail_of_not_result he hs w
      rw [hw] at h
      obtain rfl : r = .vFailure i2 true er :=
        (JSRes.ret.inj (congrArg Prod.fst h)).symm
      rfl
  · intro hfr
    cases v with
    | vSuccess i2 fr val =>
      obtain rfl : fr = true := by simpa [resultFrozen] using hfr
      cases i with
      | zero => exact ⟨by simp [jsSetIndex], by simp [jsDelIndex]⟩
      | succ n => exact ⟨rfl, rfl⟩
    | vFailure i2 fr er => exact ⟨rfl, rfl⟩
    | vNull => simp [resultFrozen] at hfr
    | vUndefined => simp [resultFrozen] at hfr
    | vBool b => simp [resultFrozen] at hfr
    | vNum n => simp [resultFrozen] at hfr
    | vStr s => simp [resultFrozen] at hfr
    | vSym s => simp [resultFrozen] at hfr
    | vErr er => simp [resultFrozen] at hfr
    | vSignal ab reason => simp [resultFrozen] at hfr

/-- Witness for C9: `succeed(0)` returns a frozen tuple, and a write to a
frozen tuple is a no-op. -/
theorem c9_witness :
    succeed (.vNum 0) ⟨0, []⟩ = (.vSuccess 0 true (.vNum 0), ⟨1, []⟩)
    ∧ jsSetIndex (.vSuccess 7 true .vNull) 0 (.vNum 9) = .vSuccess 7 true .vNull :=
  ⟨(c9_frozen_immutability (.vNum 0) .vNull .vNull ⟨0, []⟩ 0).1 (by decide),
    ((c9_frozen_immutability (.vSuccess 7 true .vNull) .vNull (.vNum 9) ⟨0, []⟩ 0).2.2
      (by decide)).1⟩

/-- C10 counterexample: the claim asserts that dispatching any Success
with the default handlers yields a Success wrapping the identical
value. But the default success handler returns the value and
`attemptSync` re-wraps it with `succeed`, which passes an
`AttemptResult` through unchanged: a Success whose value is itself an
`AttemptFailure` dispatches to that inner Failure, not to a Success. -/
theorem c10_counterexample :
    handleResultSync (.vSuccess 8 true (.vFailure 7 true ⟨6, .error, "inner"⟩)) none none
      ⟨0, []⟩ = (.ret (.vFailure 7 true ⟨6, .error, "inner"⟩), ⟨0, []⟩)
    ∧ succeeded (.vFailure 7 true ⟨6, .error, "inner"⟩) = false :=
  ⟨rfl, rfl⟩

/-- C10 amended: `handleResultSync` with the empty handler map never
throws on a valid `AttemptResult`; a Success input whose value is not
itself an `AttemptResult` yields a fresh Success carrying the identical
value, and a Failure input yields a fresh Failure carrying the
identical error object (the default failure handler rethrows it and
`attemptSync` recaptures it). -/
theorem c10_default_dispatch_amended (i j : Nat) (v : JSVal) (er : ErrObj) (r : JSVal)
    (w : World) :
    (isAttemptResult v = false →
      handleResultSync (.vSuccess i true v) none none w =
        (.ret (.vSuccess w.nextId true v), bump w))
    ∧ handleResultSync (.vFailure j true er) none none w =
        (.ret (.vFailure w.nextId true er), bump w)
    ∧ (isAttemptResult r = true → (handleResultSync r none none w).1.isRet = true) := by
  refine ⟨?_, rfl, ?_⟩
  · intro hv
    simp [handleResultSync, successDefault, failureDefault, Callback.isNotFun, attemptSync,
      jsSuccessHandler, isAttemptResult, succeed_of_new hv]
  · intro hr
    cases r with
    | vSuccess i2 fr val =>
      simp [handleResultSync, successDefault, failureDefault, Callback.isNotFun, attemptSync,
        jsSuccessHandler, isAttemptResult, JSRes.isRet]
    | vFailure i2 fr er2 =>
      simp [handleResultSync, successDefault, failureDefault, Callback.isNotFun, attemptSync,
        jsFailHandler, isAttemptResult, JSRes.isRet, fail, attemptFailureNew]
    | vNull => simp [isAttemptResult] at hr
    | vUndefined => simp [isAttemptResult] at hr
    | vBool b => simp [isAttemptResult] at hr
    | vNum n => simp [isAttemptResult] at hr
    | vStr s => simp [isAttemptResult] at hr
    | vSym s => simp [isAttemptResult] at hr
    | vErr er2 => simp [isAttemptResult] at hr
    | vSignal ab reason => simp [isAttemptResult] at hr

/-- Witness for the amended C10 on a plain Success and on a Failure. -/
theorem c10_witness :
    handleResultSync (.vSuccess 8 true (.vNum 4)) none none ⟨9, []⟩ =
      (.ret (.vSuccess 9 true (.vNum 4)), ⟨10, []⟩)
    ∧ handleResultSync (.vFailure 8 true ⟨5, .error, "x"⟩) none none ⟨9, []⟩ =
      (.ret (.vFailure 9 true ⟨5, .error, "x"⟩), ⟨10, []⟩) :=
  ⟨(c10_default_dispatch_amended 8 8 (.vNum 4) ⟨5, .error, "x"⟩ .vNull ⟨9, []⟩).1 (by decide),
    (c10_default_dispatch_amended 8 8 (.vNum 4) ⟨5, .error, "x"⟩ .vNull ⟨9, []⟩).2.1⟩

end Attempt
